import Mathlib

/-!
Verification of the Streamlit dashboard `UI.py` of the suspicious-voter
monitoring repository.  The uploaded CSV is modelled as a list of rows
(`Row`), one per vote record; the pandas filter / unique / groupby / pivot
chains of the source are embedded as executable list functions below, and
the testable properties of the specification are proved about them.
-/

namespace VoterUI

/-- One row of the uploaded CSV (`pd.read_csv` result), with the columns the
dashboard reads.  The `facenet_embedding` column is parsed but never used in
any computation, so it is omitted from the model. -/
structure Row where
  voter_id : String
  claimed_voter_id : String
  registered_constituency : String
  voting_constituency : String
  image_path : String
  fraud_type : String
  is_suspicious : Bool
deriving DecidableEq, Repr

/-- `pandas.Series.unique().tolist()`: the distinct values of a list, in
order of first occurrence.  `seen` accumulates the values already emitted. -/
def pdUniqueAux [DecidableEq α] (seen : List α) : List α → List α
  | [] => []
  | a :: l => if a ∈ seen then pdUniqueAux seen l else a :: pdUniqueAux (a :: seen) l

/-- `pandas.Series.unique().tolist()` on a list with nothing seen yet. -/
def pdUnique [DecidableEq α] (l : List α) : List α :=
  pdUniqueAux [] l

/-- `df[df['fraud_type'] == t]`: the rows of the table with fraud type `t`. -/
def byFraudType (df : List Row) (t : String) : List Row :=
  df.filter (fun r => r.fraud_type = t)

/-- `df[df['is_suspicious'] == True]` (UI.py line 160, also lines 47 and 61). -/
def suspicious_df (df : List Row) : List Row :=
  df.filter (fun r => r.is_suspicious)

/-- `df[df['fraud_type'] == 'same_constituency_identity_theft']['voter_id'].unique().tolist()`
(UI.py line 44). -/
def identity_theft_ids (df : List Row) : List String :=
  pdUnique ((byFraudType df "same_constituency_identity_theft").map (·.voter_id))

/-- `df[df['fraud_type'] == 'cross_constituency_voting']['voter_id'].unique().tolist()`
(UI.py line 45). -/
def cross_constituency_ids (df : List Row) : List String :=
  pdUnique ((byFraudType df "cross_constituency_voting").map (·.voter_id))

/-- `df[df['fraud_type'] == 'double_voting']['voter_id'].unique().tolist()`
(UI.py line 46). -/
def double_voting_ids (df : List Row) : List String :=
  pdUnique ((byFraudType df "double_voting").map (·.voter_id))

/-- `df[df['is_suspicious'] == True]['voter_id'].unique().tolist()` (UI.py line 47). -/
def all_suspicious_ids (df : List Row) : List String :=
  pdUnique ((suspicious_df df).map (·.voter_id))

/-- The `fraud_categories` dict of UI.py lines 43-48: four named lists of
unique voter ids, in insertion order. -/
def fraud_categories (df : List Row) : List (String × List String) :=
  [("Same Constituency Identity Theft", identity_theft_ids df),
   ("Cross-Constituency Voting", cross_constituency_ids df),
   ("Double Voting", double_voting_ids df),
   ("All Suspicious Voters", all_suspicious_ids df)]

/-- `{k: v for k, v in fraud_categories.items() if len(v) > 0}` (UI.py line 80). -/
def active_categories (df : List Row) : List (String × List String) :=
  (fraud_categories df).filter (fun kv => kv.2.length > 0)

/-- The three fraud-type labels that have their own category bucket. -/
def fraudLabels : List String :=
  ["same_constituency_identity_theft", "cross_constituency_voting", "double_voting"]

/-- `fraud_rate = (len(df[df['is_suspicious'] == True]) / len(df) * 100)`
(UI.py line 65).  The division is unguarded in the source: on a zero-row
table Python raises an uncaught `ZeroDivisionError`, modelled here as
`none`; otherwise the exact quotient is returned. -/
def fraud_rate (df : List Row) : Option ℚ :=
  if df.length = 0 then none
  else some (((suspicious_df df).length : ℚ) / (df.length : ℚ) * 100)

/-- Python `f"{x:.1f}%"` on a nonnegative value: one decimal digit
(rounded to the nearest tenth) followed by a percent sign. -/
def fmtPct1 (q : ℚ) : String :=
  let t : ℤ := ⌊q * 10 + 1 / 2⌋
  toString (t / 10) ++ "." ++ toString (t % 10) ++ "%"

/-- The rendered fraud-rate metric string (UI.py line 66), `none` when the
computation on line 65 already raised. -/
def fraud_rate_str (df : List Row) : Option String :=
  (fraud_rate df).map fmtPct1

/-- The list `reasons` built for one row by the clause checks of UI.py
lines 112-118: each clause tests `row['fraud_type']` for equality with one
label and appends its message. -/
def reasons (row : Row) : List String :=
  (if row.fraud_type = "same_constituency_identity_theft" then
     ["Identity theft: Claims to be " ++ row.claimed_voter_id] else []) ++
  (if row.fraud_type = "cross_constituency_voting" then
     ["Voting in wrong constituency: Registered in " ++ row.registered_constituency ++
      ", voting in " ++ row.voting_constituency] else []) ++
  (if row.fraud_type = "double_voting" then
     ["Multiple voting attempts detected"] else [])

/-- `"; ".join(reasons) if reasons else "Legitimate"` (UI.py line 119). -/
def fraud_reason (row : Row) : String :=
  if reasons row = [] then "Legitimate" else String.intercalate "; " (reasons row)

/-- `suspicious_df.groupby(['voting_constituency', 'fraud_type']).size()`
(UI.py line 188): one entry per distinct (constituency, fraud type) pair of
the suspicious subset, carrying the size of its group. -/
def detailed_summary (df : List Row) : List ((String × String) × Nat) :=
  (pdUnique ((suspicious_df df).map
      (fun r => (r.voting_constituency, r.fraud_type)))).map
    (fun ct => (ct, ((suspicious_df df).filter
      (fun r => (r.voting_constituency, r.fraud_type) = ct)).length))

/-- The row labels of the pivot of UI.py lines 191-195: the distinct
constituencies occurring in `detailed_summary`. -/
def pivot_index (df : List Row) : List String :=
  pdUnique ((suspicious_df df).map (·.voting_constituency))

/-- The column labels of the pivot: the distinct fraud types occurring in
`detailed_summary`. -/
def pivot_columns (df : List Row) : List String :=
  pdUnique ((suspicious_df df).map (·.fraud_type))

/-- One cell of `detailed_summary.pivot(...).fillna(0).astype(int)`
(UI.py lines 191-195): the count grouped at `(c, t)` when that pair occurs,
and `0` (the `fillna`) for an absent combination. -/
def pivot_cell (df : List Row) (c t : String) : Nat :=
  match (detailed_summary df).find? (fun e => e.1 = (c, t)) with
  | some e => e.2
  | none => 0

/-- The sum of every cell of the rendered pivot table. -/
def pivot_total (df : List Row) : Nat :=
  ((pivot_index df).map (fun c =>
    ((pivot_columns df).map (fun t => pivot_cell df c t)).sum)).sum

/-- `df[df['fraud_type'] == 'double_voting']['voter_id'].unique()` (UI.py
line 230): the voters listed in the double-voting tab. -/
def double_voters (df : List Row) : List String :=
  pdUnique ((byFraudType df "double_voting").map (·.voter_id))

/-- `len(df[(df['voter_id'] == voter)])` (UI.py line 235): all rows of the
whole table carrying this voter id. -/
def voterRows (df : List Row) (v : String) : List Row :=
  df.filter (fun r => r.voter_id = v)

/-- `df[df['voter_id'] == voter]['voting_constituency'].unique()` (UI.py
line 239): the distinct constituencies over all of the voter's rows. -/
def voter_constituencies (df : List Row) (v : String) : List String :=
  pdUnique ((voterRows df v).map (·.voting_constituency))

/-- One dict of the `double_summary` list (UI.py lines 236-240): voter id,
number of votes, and the joined constituency list. -/
structure DoubleEntry where
  voterId : String
  numVotes : Nat
  constituencies : String
deriving DecidableEq, Repr

/-- The `double_summary` list built by the loop of UI.py lines 233-240. -/
def double_summary (df : List Row) : List DoubleEntry :=
  (double_voters df).map (fun v =>
    { voterId := v,
      numVotes := (voterRows df v).length,
      constituencies := String.intercalate ", " (voter_constituencies df v) })

/-- Outcome of rendering one image cell of the gallery (UI.py lines
133-136): either `st.image` with its caption succeeded, or the exception
was caught and `st.error` rendered an inline message for that image. -/
inductive ImgCell where
  | image (path caption : String)
  | error (msg : String)
deriving DecidableEq, Repr

/-- The loop `for i, img_path in enumerate(voter_data['image_path'])` of
UI.py lines 131-136, with the try/except around `st.image`: `loads p`
abstracts whether `st.image p` succeeds, and the except-branch renders the
`st.error` cell instead.  `i` is the running `enumerate` index. -/
def render_gallery_from (loads : String → Bool) (i : Nat) : List String → List ImgCell
  | [] => []
  | p :: ps =>
    (if loads p then ImgCell.image p ("Image " ++ toString (i + 1))
     else ImgCell.error ("Cannot load image: " ++ p)) :: render_gallery_from loads (i + 1) ps

/-- The whole gallery for a voter's image paths. -/
def render_gallery (loads : String → Bool) (paths : List String) : List ImgCell :=
  render_gallery_from loads 0 paths

/-- The concatenation of the three specific category sets (the left-hand
side of the partition property of spec section 8). -/
def union_three (df : List Row) : List String :=
  identity_theft_ids df ++ cross_constituency_ids df ++ double_voting_ids df

/-! ### Concrete tables used to instantiate the theorems -/

/-- A legitimate vote record. -/
def rLegit : Row :=
  ⟨"V1", "V1", "North", "North", "a.jpg", "legitimate", false⟩

/-- An identity-theft record. -/
def rTheft : Row :=
  ⟨"V2", "V9", "North", "North", "b.jpg", "same_constituency_identity_theft", true⟩

/-- A cross-constituency record. -/
def rCross : Row :=
  ⟨"V3", "V3", "North", "South", "c.jpg", "cross_constituency_voting", true⟩

/-- A double-voting record of voter V4 in East. -/
def rDouble : Row :=
  ⟨"V4", "V4", "East", "East", "d.jpg", "double_voting", true⟩

/-- A second double-voting record of voter V4, in West. -/
def rDouble2 : Row :=
  ⟨"V4", "V4", "East", "West", "e.jpg", "double_voting", true⟩

/-- A suspicious record whose fraud type is none of the three known labels. -/
def rOther : Row :=
  ⟨"V5", "V5", "West", "West", "f.jpg", "ballot_stuffing", true⟩

/-- A double-voting record that violates the section-3 invariant: the
suspicious flag is false although the fraud type is a fraud label. -/
def rBadDouble : Row :=
  ⟨"V6", "V6", "East", "East", "g.jpg", "double_voting", false⟩

/-- A suspicious record of voter V7 with an unknown fraud type. -/
def rOtherV7 : Row :=
  ⟨"V7", "V7", "West", "West", "h.jpg", "weird_fraud", true⟩

/-- A double-voting record of the same voter V7. -/
def rDoubleV7 : Row :=
  ⟨"V7", "V7", "West", "West", "i.jpg", "double_voting", true⟩

/-- A legitimate record of voter V4, so that V4's whole-table vote count
exceeds V4's double-voting count. -/
def rV4Legit : Row :=
  ⟨"V4", "V4", "North", "North", "j.jpg", "legitimate", false⟩

/-- A well-formed table exercising every category. -/
def sampleTable : List Row :=
  [rLegit, rTheft, rCross, rDouble, rDouble2]

/-- A table violating the section-3 invariant. -/
def tableBad : List Row :=
  [rBadDouble]

/-- A table where an unknown fraud type coexists with a known one on the
same voter. -/
def tableOther : List Row :=
  [rOtherV7, rDoubleV7]

/-- A table with one legitimate row and one suspicious row of unknown
fraud type. -/
def tableC5 : List Row :=
  [rLegit, rOther]

/-- A table where double-voter V4 also has a legitimate row. -/
def tableC8 : List Row :=
  [rLegit, rDouble, rDouble2, rV4Legit]

/-- A load predicate under which exactly the path "bad.jpg" fails. -/
def demoLoads : String → Bool :=
  fun p => p != "bad.jpg"

/-! ### Basic lemmas about the embedded pandas primitives -/

theorem mem_pdUniqueAux [DecidableEq α] (l : List α) :
    ∀ (seen : List α) (a : α), a ∈ pdUniqueAux seen l ↔ a ∈ l ∧ a ∉ seen := by
  induction l with
  | nil => intro seen a; simp [pdUniqueAux]
  | cons b l ih =>
    intro seen a
    by_cases hb : b ∈ seen
    · rw [pdUniqueAux, if_pos hb, ih]
      constructor
      · rintro ⟨h1, h2⟩; exact ⟨List.mem_cons_of_mem _ h1, h2⟩
      · rintro ⟨h1, h2⟩
        rcases List.mem_cons.mp h1 with rfl | h1
        · exact absurd hb h2
        · exact ⟨h1, h2⟩
    · rw [pdUniqueAux, if_neg hb]
      constructor
      · intro h
        rcases List.mem_cons.mp h with rfl | h
        · exact ⟨List.mem_cons_self _ _, hb⟩
        · rcases (ih _ _).mp h with ⟨h1, h2⟩
          refine ⟨List.mem_cons_of_mem _ h1, fun hs => h2 (List.mem_cons_of_mem _ hs)⟩
      · rintro ⟨h1, h2⟩
        rcases List.mem_cons.mp h1 with rfl | h1
        · exact List.mem_cons_self _ _
        · by_cases hab : a = b
          · subst hab; exact List.mem_cons_self _ _
          · exact List.mem_cons_of_mem _ ((ih _ _).mpr
              ⟨h1, fun hs => (List.mem_cons.mp hs).elim hab h2⟩)

theorem mem_pdUnique [DecidableEq α] (l : List α) (a : α) :
    a ∈ pdUnique l ↔ a ∈ l := by
  rw [pdUnique, mem_pdUniqueAux]
  simp

theorem nodup_pdUniqueAux [DecidableEq α] (l : List α) :
    ∀ seen : List α, (pdUniqueAux seen l).Nodup := by
  induction l with
  | nil => intro seen; simp [pdUniqueAux]
  | cons b l ih =>
    intro seen
    by_cases hb : b ∈ seen
    · rw [pdUniqueAux, if_pos hb]; exact ih seen
    · rw [pdUniqueAux, if_neg hb]
      refine List.nodup_cons.mpr ⟨fun hmem => ?_, ih (b :: seen)⟩
      exact ((mem_pdUniqueAux l (b :: seen) b).mp hmem).2 (List.mem_cons_self _ _)

theorem nodup_pdUnique [DecidableEq α] (l : List α) : (pdUnique l).Nodup :=
  nodup_pdUniqueAux l []

theorem mem_ids_byFraudType (df : List Row) (t v : String) :
    v ∈ pdUnique ((byFraudType df t).map (·.voter_id)) ↔
      ∃ r ∈ df, r.fraud_type = t ∧ r.voter_id = v := by
  rw [mem_pdUnique, List.mem_map]
  constructor
  · rintro ⟨r, hr, rfl⟩
    rcases List.mem_filter.mp hr with ⟨hrd, hft⟩
    exact ⟨r, hrd, by simpa using hft, rfl⟩
  · rintro ⟨r, hrd, hft, rfl⟩
    exact ⟨r, List.mem_filter.mpr ⟨hrd, by simpa using hft⟩, rfl⟩

theorem mem_identity_theft_ids (df : List Row) (v : String) :
    v ∈ identity_theft_ids df ↔
      ∃ r ∈ df, r.fraud_type = "same_constituency_identity_theft" ∧ r.voter_id = v :=
  mem_ids_byFraudType df _ v

theorem mem_cross_constituency_ids (df : List Row) (v : String) :
    v ∈ cross_constituency_ids df ↔
      ∃ r ∈ df, r.fraud_type = "cross_constituency_voting" ∧ r.voter_id = v :=
  mem_ids_byFraudType df _ v

theorem mem_double_voting_ids (df : List Row) (v : String) :
    v ∈ double_voting_ids df ↔
      ∃ r ∈ df, r.fraud_type = "double_voting" ∧ r.voter_id = v :=
  mem_ids_byFraudType df _ v

theorem mem_all_suspicious_ids (df : List Row) (v : String) :
    v ∈ all_suspicious_ids df ↔ ∃ r ∈ df, r.is_suspicious = true ∧ r.voter_id = v := by
  rw [all_suspicious_ids, mem_pdUnique, List.mem_map]
  constructor
  · rintro ⟨r, hr, rfl⟩
    rcases List.mem_filter.mp hr with ⟨hrd, hs⟩
    exact ⟨r, hrd, by simpa using hs, rfl⟩
  · rintro ⟨r, hrd, hs, rfl⟩
    exact ⟨r, List.mem_filter.mpr ⟨hrd, by simpa using hs⟩, rfl⟩

theorem mem_union_three (df : List Row) (v : String) :
    v ∈ union_three df ↔ ∃ r ∈ df, r.fraud_type ∈ fraudLabels ∧ r.voter_id = v := by
  rw [union_three]
  constructor
  · intro h
    rcases List.mem_append.mp h with h | h
    · rcases List.mem_append.mp h with h | h
      · rcases (mem_identity_theft_ids df v).mp h with ⟨r, hrd, hft, rfl⟩
        exact ⟨r, hrd, by simp [fraudLabels, hft], rfl⟩
      · rcases (mem_cross_constituency_ids df v).mp h with ⟨r, hrd, hft, rfl⟩
        exact ⟨r, hrd, by simp [fraudLabels, hft], rfl⟩
    · rcases (mem_double_voting_ids df v).mp h with ⟨r, hrd, hft, rfl⟩
      exact ⟨r, hrd, by simp [fraudLabels, hft], rfl⟩
  · rintro ⟨r, hrd, hft, rfl⟩
    rcases by simpa [fraudLabels] using hft with h | h | h
    · exact List.mem_append.mpr (Or.inl (List.mem_append.mpr
        (Or.inl ((mem_identity_theft_ids df _).mpr ⟨r, hrd, h, rfl⟩))))
    · exact List.mem_append.mpr (Or.inl (List.mem_append.mpr
        (Or.inr ((mem_cross_constituency_ids df _).mpr ⟨r, hrd, h, rfl⟩))))
    · exact List.mem_append.mpr (Or.inr ((mem_double_voting_ids df _).mpr ⟨r, hrd, h, rfl⟩))

theorem intercalate_singleton (sep a : String) : String.intercalate sep [a] = a := by
  simp [String.intercalate, String.intercalate.go]

theorem fmtPct1_zero : fmtPct1 0 = "0.0%" := by
  have h : ⌊(0 : ℚ) * 10 + 1 / 2⌋ = 0 := by
    rw [Int.floor_eq_iff]
    norm_num
  rw [fmtPct1, h]
  rfl

theorem fmtPct1_hundred : fmtPct1 100 = "100.0%" := by
  have h : ⌊(100 : ℚ) * 10 + 1 / 2⌋ = 1000 := by
    rw [Int.floor_eq_iff]
    norm_num
  rw [fmtPct1, h]
  rfl

/-! ### The claims -/

/-- C1: the claim requires the fraud-rate computation to be guarded against
division by zero on a zero-row table, reporting a controlled error or
suppressing the metric.  The source (UI.py line 65) divides by `len(df)`
with no guard, so on an empty table the computation raises an uncaught
`ZeroDivisionError` (modelled by `none`) and no metric string is produced:
the code violates the stated policy. -/
theorem C1_empty_table_unguarded_division :
    fraud_rate ([] : List Row) = none ∧ fraud_rate_str ([] : List Row) = none :=
  ⟨rfl, rfl⟩

/-- C3: reason synthesis is a deterministic function of the row; when a
clause applies the reason is the applicable clauses joined with "; ", and a
row with fraud type "legitimate" (more generally, a row where no clause
applies) yields exactly the literal string "Legitimate". -/
theorem C3_reason_synthesis (r : Row) :
    (∀ r2 : Row, r2 = r → fraud_reason r2 = fraud_reason r) ∧
    (reasons r ≠ [] → fraud_reason r = String.intercalate "; " (reasons r)) ∧
    (r.fraud_type = "legitimate" → reasons r = [] ∧ fraud_reason r = "Legitimate") := by
  refine ⟨fun r2 h => by rw [h], fun h => by rw [fraud_reason, if_neg h], fun h => ?_⟩
  have hr : reasons r = [] := by simp [reasons, h]
  exact ⟨hr, by rw [fraud_reason, if_pos hr]⟩

/-- Witness for C3 at two concrete rows: a legitimate row yields
"Legitimate" and a double-voting row yields its joined clause list. -/
theorem C3_reason_synthesis_witness :
    rLegit.fraud_type = "legitimate" ∧ reasons rDouble ≠ [] ∧
    fraud_reason rLegit = "Legitimate" ∧
    fraud_reason rDouble = String.intercalate "; " (reasons rDouble) :=
  ⟨by decide, by decide,
   ((C3_reason_synthesis rLegit).2.2 (by decide)).2,
   (C3_reason_synthesis rDouble).2.1 (by decide)⟩

/-- C10: the three clause conditions test the single fraud-type value for
equality with pairwise-distinct labels, so at most one clause fires; the
synthesized reason is always exactly one of four strings, and the "; "
separator never joins two clauses. -/
theorem C10_clauses_mutually_exclusive (r : Row) :
    (reasons r).length ≤ 1 ∧
    (fraud_reason r = "Legitimate" ∨
     fraud_reason r = "Identity theft: Claims to be " ++ r.claimed_voter_id ∨
     fraud_reason r = "Voting in wrong constituency: Registered in " ++
       r.registered_constituency ++ ", voting in " ++ r.voting_constituency ∨
     fraud_reason r = "Multiple voting attempts detected") := by
  by_cases h1 : r.fraud_type = "same_constituency_identity_theft" <;>
    by_cases h2 : r.fraud_type = "cross_constituency_voting" <;>
      by_cases h3 : r.fraud_type = "double_voting" <;>
        simp_all [reasons, fraud_reason, intercalate_singleton]

/-- C6: a category whose voter-id list is empty is excluded from the
selectable category list handed to the selectbox, and every category with
at least one member is included (UI.py line 80). -/
theorem C6_active_categories (df : List Row) (kv : String × List String)
    (hkv : kv ∈ fraud_categories df) :
    kv ∈ active_categories df ↔ kv.2 ≠ [] := by
  rw [active_categories, List.mem_filter]
  constructor
  · rintro ⟨-, h2⟩
    simp only [decide_eq_true_eq] at h2
    exact List.ne_nil_of_length_pos h2
  · intro h
    refine ⟨hkv, ?_⟩
    simp only [decide_eq_true_eq]
    exact List.length_pos.mpr h

/-- Witness for C6: on the sample table the identity-theft category is
nonempty and selectable. -/
theorem C6_active_categories_witness :
    (("Same Constituency Identity Theft", identity_theft_ids sampleTable) ∈
      fraud_categories sampleTable) ∧
    ((("Same Constituency Identity Theft", identity_theft_ids sampleTable) ∈
      active_categories sampleTable) ↔ identity_theft_ids sampleTable ≠ []) :=
  ⟨by decide, C6_active_categories sampleTable _ (by decide)⟩

/-- C4: for a nonempty table the fraud-rate metric is
(suspicious count / total count) × 100 formatted to one decimal place; with
0 suspicious rows it renders "0.0%", and with every row suspicious it
renders "100.0%". -/
theorem C4_fraud_rate_formula (df : List Row) (h : 0 < df.length) :
    fraud_rate df = some (((suspicious_df df).length : ℚ) / (df.length : ℚ) * 100) ∧
    ((suspicious_df df).length = 0 → fraud_rate_str df = some "0.0%") ∧
    ((suspicious_df df).length = df.length → fraud_rate_str df = some "100.0%") := by
  have hne : df.length ≠ 0 := Nat.pos_iff_ne_zero.mp h
  have hrate : fraud_rate df =
      some (((suspicious_df df).length : ℚ) / (df.length : ℚ) * 100) := by
    rw [fraud_rate, if_neg hne]
  refine ⟨hrate, fun h0 => ?_, fun hall => ?_⟩
  · have : fraud_rate df = some 0 := by
      rw [hrate, h0]
      norm_num
    rw [fraud_rate_str, this]
    simp [fmtPct1_zero]
  · have hcast : ((df.length : ℚ)) ≠ 0 := Nat.cast_ne_zero.mpr hne
    have : fraud_rate df = some 100 := by
      rw [hrate, hall, div_self hcast, one_mul]
    rw [fraud_rate_str, this]
    simp [fmtPct1_hundred]

/-- Witness for C4: the one-row legitimate table renders "0.0%", the
one-row identity-theft table renders "100.0%". -/
theorem C4_fraud_rate_formula_witness :
    0 < ([rLegit] : List Row).length ∧ (suspicious_df [rLegit]).length = 0 ∧
    fraud_rate_str [rLegit] = some "0.0%" ∧
    0 < ([rTheft] : List Row).length ∧
    (suspicious_df [rTheft]).length = ([rTheft] : List Row).length ∧
    fraud_rate_str [rTheft] = some "100.0%" :=
  ⟨by decide, by decide,
   (C4_fraud_rate_formula [rLegit] (by decide)).2.1 (by decide),
   by decide, by decide,
   (C4_fraud_rate_formula [rTheft] (by decide)).2.2 (by decide)⟩

theorem render_gallery_from_spec (loads : String → Bool) (paths : List String) :
    ∀ j, (render_gallery_from loads j paths).length = paths.length ∧
      ∀ i p, paths[i]? = some p →
        (render_gallery_from loads j paths)[i]? =
          some (if loads p then ImgCell.image p ("Image " ++ toString (j + i + 1))
                else ImgCell.error ("Cannot load image: " ++ p)) := by
  induction paths with
  | nil =>
    intro j
    refine ⟨rfl, fun i p h => ?_⟩
    simp at h
  | cons q ps ih =>
    intro j
    refine ⟨by simp [render_gallery_from, (ih (j + 1)).1], fun i p h => ?_⟩
    cases i with
    | zero =>
      simp only [List.getElem?_cons_zero, Option.some.injEq] at h
      subst h
      simp [render_gallery_from]
    | succ i =>
      simp only [List.getElem?_cons_succ] at h
      have hrec := (ih (j + 1)).2 i p h
      have harith : j + 1 + i + 1 = j + (i + 1) + 1 := by omega
      rw [render_gallery_from, List.getElem?_cons_succ, hrec, harith]

/-- C9: the gallery loop renders every image path inside its own
try/except: an unreadable path yields the inline error cell for that image
only, every other path still gets its own cell, and the gallery always has
exactly one cell per path. -/
theorem C9_gallery_fault_tolerance (loads : String → Bool) (paths : List String) :
    (render_gallery loads paths).length = paths.length ∧
    ∀ i p, paths[i]? = some p →
      (render_gallery loads paths)[i]? =
        some (if loads p then ImgCell.image p ("Image " ++ toString (i + 1))
              else ImgCell.error ("Cannot load image: " ++ p)) := by
  refine ⟨(render_gallery_from_spec loads paths 0).1, fun i p h => ?_⟩
  have := (render_gallery_from_spec loads paths 0).2 i p h
  rwa [Nat.zero_add] at this

/-- Witness for C9: with a load predicate failing exactly on "bad.jpg",
the middle cell is the inline error and the gallery still has three cells. -/
theorem C9_gallery_fault_tolerance_witness :
    (["a.jpg", "bad.jpg", "c.jpg"] : List String)[1]? = some "bad.jpg" ∧
    (render_gallery demoLoads ["a.jpg", "bad.jpg", "c.jpg"]).length = 3 ∧
    (render_gallery demoLoads ["a.jpg", "bad.jpg", "c.jpg"])[1]? =
      some (if demoLoads "bad.jpg" then ImgCell.image "bad.jpg" ("Image " ++ toString (1 + 1))
            else ImgCell.error ("Cannot load image: " ++ "bad.jpg")) :=
  ⟨by decide,
   (C9_gallery_fault_tolerance demoLoads ["a.jpg", "bad.jpg", "c.jpg"]).1,
   (C9_gallery_fault_tolerance demoLoads ["a.jpg", "bad.jpg", "c.jpg"]).2 1 "bad.jpg" (by decide)⟩

/-- C2 is false as stated.  First, the categories key on `fraud_type` but
"All Suspicious Voters" keys on the independent `is_suspicious` column:
on `tableBad` (one double-voting row whose suspicious flag is false) the
union of the three category sets is not contained in the suspicious set.
Second, the "iff" fails in the only-if direction: on `tableOther` the two
sets coincide although a fraud type outside the three labels exists. -/
theorem C2_subset_counterexample :
    (¬ ∀ v ∈ union_three tableBad, v ∈ all_suspicious_ids tableBad) ∧
    union_three tableOther = all_suspicious_ids tableOther ∧
    ∃ r ∈ tableOther, r.is_suspicious = true ∧ r.fraud_type ∉ fraudLabels ∧
      r.fraud_type ≠ "legitimate" := by
  refine ⟨by decide, by decide, ?_⟩
  exact ⟨rOtherV7, by decide, by decide, by decide, by decide⟩

/-- C2 amended: if every row carrying one of the three fraud labels is
flagged suspicious (the section-3 invariant restricted to those rows), the
union of the three category sets is a subset of "All Suspicious Voters";
if moreover every suspicious row carries one of the three labels, the two
sets are equal.  (The converse of the equality direction is not provable:
see the counterexample.) -/
theorem C2_union_subset_suspicious (df : List Row)
    (hinv : ∀ r ∈ df, r.fraud_type ∈ fraudLabels → r.is_suspicious = true) :
    (∀ v ∈ union_three df, v ∈ all_suspicious_ids df) ∧
    ((∀ r ∈ df, r.is_suspicious = true → r.fraud_type ∈ fraudLabels) →
      ∀ v, v ∈ union_three df ↔ v ∈ all_suspicious_ids df) := by
  have hsub : ∀ v ∈ union_three df, v ∈ all_suspicious_ids df := by
    intro v hv
    rcases (mem_union_three df v).mp hv with ⟨r, hrd, hft, rfl⟩
    exact (mem_all_suspicious_ids df _).mpr ⟨r, hrd, hinv r hrd hft, rfl⟩
  refine ⟨hsub, fun honly v => ⟨hsub v, fun hv => ?_⟩⟩
  rcases (mem_all_suspicious_ids df v).mp hv with ⟨r, hrd, hs, rfl⟩
  exact (mem_union_three df _).mpr ⟨r, hrd, honly r hrd hs, rfl⟩

/-- Witness for the amended C2 on the sample table, which satisfies both
hypotheses. -/
theorem C2_union_subset_suspicious_witness :
    (∀ r ∈ sampleTable, r.fraud_type ∈ fraudLabels → r.is_suspicious = true) ∧
    (∀ r ∈ sampleTable, r.is_suspicious = true → r.fraud_type ∈ fraudLabels) ∧
    (∀ v ∈ union_three sampleTable, v ∈ all_suspicious_ids sampleTable) ∧
    ("V2" ∈ union_three sampleTable ↔ "V2" ∈ all_suspicious_ids sampleTable) :=
  ⟨by decide, by decide,
   (C2_union_subset_suspicious sampleTable (by decide)).1,
   (C2_union_subset_suspicious sampleTable (by decide)).2 (by decide) "V2"⟩

/-- C5: each of the three specific categories is exactly the set of voter
ids of rows whose fraud type equals its label, "All Suspicious Voters" is
exactly the set of voter ids of rows whose suspicious flag is true, and the
buckets are independent: a suspicious row with an unknown fraud type puts
its voter id into "All Suspicious Voters" and (provided none of that
voter's rows carries a known label) into none of the three categories. -/
theorem C5_bucket_independence (df : List Row) (r : Row) (hr : r ∈ df)
    (hs : r.is_suspicious = true) (_ht : r.fraud_type ∉ fraudLabels) :
    (∀ v, v ∈ identity_theft_ids df ↔
      ∃ r2 ∈ df, r2.fraud_type = "same_constituency_identity_theft" ∧ r2.voter_id = v) ∧
    (∀ v, v ∈ cross_constituency_ids df ↔
      ∃ r2 ∈ df, r2.fraud_type = "cross_constituency_voting" ∧ r2.voter_id = v) ∧
    (∀ v, v ∈ double_voting_ids df ↔
      ∃ r2 ∈ df, r2.fraud_type = "double_voting" ∧ r2.voter_id = v) ∧
    (∀ v, v ∈ all_suspicious_ids df ↔
      ∃ r2 ∈ df, r2.is_suspicious = true ∧ r2.voter_id = v) ∧
    r.voter_id ∈ all_suspicious_ids df ∧
    ((∀ r2 ∈ df, r2.voter_id = r.voter_id → r2.fraud_type ∉ fraudLabels) →
      r.voter_id ∉ identity_theft_ids df ∧ r.voter_id ∉ cross_constituency_ids df ∧
        r.voter_id ∉ double_voting_ids df) := by
  refine ⟨mem_identity_theft_ids df, mem_cross_constituency_ids df,
    mem_double_voting_ids df, mem_all_suspicious_ids df,
    (mem_all_suspicious_ids df _).mpr ⟨r, hr, hs, rfl⟩, fun hnone => ⟨?_, ?_, ?_⟩⟩
  · intro hmem
    rcases (mem_identity_theft_ids df _).mp hmem with ⟨r2, hr2, hft2, hv2⟩
    exact hnone r2 hr2 hv2 (by simp [fraudLabels, hft2])
  · intro hmem
    rcases (mem_cross_constituency_ids df _).mp hmem with ⟨r2, hr2, hft2, hv2⟩
    exact hnone r2 hr2 hv2 (by simp [fraudLabels, hft2])
  · intro hmem
    rcases (mem_double_voting_ids df _).mp hmem with ⟨r2, hr2, hft2, hv2⟩
    exact hnone r2 hr2 hv2 (by simp [fraudLabels, hft2])

/-- Witness for C5: on `tableC5` the suspicious ballot-stuffing row of
voter V5 contributes to "All Suspicious Voters" and to none of the three
specific categories. -/
theorem C5_bucket_independence_witness :
    rOther ∈ tableC5 ∧ rOther.is_suspicious = true ∧ rOther.fraud_type ∉ fraudLabels ∧
    rOther.voter_id ∈ all_suspicious_ids tableC5 ∧
    (rOther.voter_id ∉ identity_theft_ids tableC5 ∧
      rOther.voter_id ∉ cross_constituency_ids tableC5 ∧
      rOther.voter_id ∉ double_voting_ids tableC5) :=
  have h := C5_bucket_independence tableC5 rOther (by decide) (by decide) (by decide)
  ⟨by decide, by decide, by decide, h.2.2.2.2.1, h.2.2.2.2.2 (by decide)⟩

theorem mem_voterRows (df : List Row) (v : String) (r : Row) :
    r ∈ voterRows df v ↔ r ∈ df ∧ r.voter_id = v := by
  rw [voterRows, List.mem_filter]
  simp

theorem mem_voter_constituencies (df : List Row) (v c : String) :
    c ∈ voter_constituencies df v ↔
      ∃ r ∈ df, r.voter_id = v ∧ r.voting_constituency = c := by
  rw [voter_constituencies, mem_pdUnique, List.mem_map]
  constructor
  · rintro ⟨r, hr, rfl⟩
    rcases (mem_voterRows df v r).mp hr with ⟨hrd, hv⟩
    exact ⟨r, hrd, hv, rfl⟩
  · rintro ⟨r, hrd, hv, rfl⟩
    exact ⟨r, (mem_voterRows df v r).mpr ⟨hrd, hv⟩, rfl⟩

/-- C8: for each voter listed under double voting, the summary contains an
entry whose vote count is the number of rows of the *whole* table carrying
that voter id, and whose constituency string joins the distinct voting
constituencies of all of that voter's rows; the underlying constituency
list has exactly the voter's constituencies as members, without
duplicates. -/
theorem C8_double_voting_summary (df : List Row) (v : String)
    (hv : v ∈ double_voters df) :
    ({ voterId := v, numVotes := (voterRows df v).length,
       constituencies := String.intercalate ", " (voter_constituencies df v) } :
      DoubleEntry) ∈ double_summary df ∧
    (∀ r : Row, r ∈ voterRows df v ↔ r ∈ df ∧ r.voter_id = v) ∧
    (∀ c, c ∈ voter_constituencies df v ↔
      ∃ r ∈ df, r.voter_id = v ∧ r.voting_constituency = c) ∧
    (voter_constituencies df v).Nodup := by
  refine ⟨?_, mem_voterRows df v, mem_voter_constituencies df v, nodup_pdUnique _⟩
  exact List.mem_map_of_mem _ hv

/-- Witness for C8: on `tableC8` voter V4 has two double-voting rows and
one legitimate row, hence 3 votes across the whole table over
constituencies East, West and North. -/
theorem C8_double_voting_summary_witness :
    "V4" ∈ double_voters tableC8 ∧
    (voterRows tableC8 "V4").length = 3 ∧
    (byFraudType tableC8 "double_voting").length = 2 ∧
    voter_constituencies tableC8 "V4" = ["East", "West", "North"] ∧
    ({ voterId := "V4", numVotes := (voterRows tableC8 "V4").length,
       constituencies := String.intercalate ", " (voter_constituencies tableC8 "V4") } :
      DoubleEntry) ∈ double_summary tableC8 :=
  ⟨by decide, by decide, by decide, by decide,
   (C8_double_voting_summary tableC8 "V4" (by decide)).1⟩

/-! ### Counting lemmas for the pivot table -/

theorem sum_map_add_nat (l : List α) (f g : α → Nat) :
    (l.map (fun a => f a + g a)).sum = (l.map f).sum + (l.map g).sum := by
  induction l with
  | nil => rfl
  | cons a l ih =>
    simp only [List.map_cons, List.sum_cons, ih]
    omega

theorem sum_map_ite_zero [DecidableEq β] (C : List β) (b : β) (hb : b ∉ C) :
    (C.map (fun c => if b = c then 1 else 0)).sum = 0 := by
  induction C with
  | nil => rfl
  | cons c C ih =>
    have h1 : b ≠ c := fun h => hb (h ▸ List.mem_cons_self _ _)
    have h2 : b ∉ C := fun h => hb (List.mem_cons_of_mem _ h)
    simp [h1, ih h2]

theorem sum_map_ite_one [DecidableEq β] (C : List β) (b : β) (hC : C.Nodup)
    (hb : b ∈ C) : (C.map (fun c => if b = c then 1 else 0)).sum = 1 := by
  induction C with
  | nil => cases hb
  | cons c C ih =>
    rcases List.nodup_cons.mp hC with ⟨hcC, hCn⟩
    by_cases h : b = c
    · subst h
      simp [sum_map_ite_zero C b hcC]
    · rcases List.mem_cons.mp hb with h1 | h1
      · exact absurd h1 h
      · simp [h, ih hCn h1]

theorem sum_map_length_filter [DecidableEq β] (S : List α) (f : α → β) :
    ∀ C : List β, C.Nodup → (∀ a ∈ S, f a ∈ C) →
      (C.map (fun c => (S.filter (fun a => f a = c)).length)).sum = S.length := by
  induction S with
  | nil => intro C _ _; simp
  | cons a S ih =>
    intro C hC hcov
    have hfa : f a ∈ C := hcov a (List.mem_cons_self _ _)
    have hrest : ∀ x ∈ S, f x ∈ C := fun x hx => hcov x (List.mem_cons_of_mem _ hx)
    have hsplit : ∀ c : β, ((a :: S).filter (fun x => f x = c)).length =
        (if f a = c then 1 else 0) + (S.filter (fun x => f x = c)).length := by
      intro c
      by_cases h : f a = c <;> simp [List.filter_cons, h, Nat.add_comm]
    calc (C.map (fun c => ((a :: S).filter (fun x => f x = c)).length)).sum
        = (C.map (fun c => (if f a = c then 1 else 0) +
            (S.filter (fun x => f x = c)).length)).sum := by
          simp only [hsplit]
      _ = (C.map (fun c => if f a = c then 1 else 0)).sum +
            (C.map (fun c => (S.filter (fun x => f x = c)).length)).sum :=
          sum_map_add_nat C _ _
      _ = 1 + S.length := by rw [sum_map_ite_one C (f a) hC hfa, ih C hC hrest]
      _ = (a :: S).length := by simp [Nat.add_comm]

theorem sum_grid [DecidableEq β] [DecidableEq γ] (S : List α) (f : α → β) (g : α → γ)
    (C : List β) (D : List γ) (hC : C.Nodup) (hD : D.Nodup)
    (hcovC : ∀ a ∈ S, f a ∈ C) (hcovD : ∀ a ∈ S, g a ∈ D) :
    (C.map (fun c => (D.map (fun d =>
      (S.filter (fun a => f a = c ∧ g a = d)).length)).sum)).sum = S.length := by
  have hcell : ∀ (c : β) (d : γ), S.filter (fun a => decide (f a = c ∧ g a = d)) =
      (S.filter (fun a => f a = c)).filter (fun a => g a = d) := by
    intro c d
    rw [List.filter_filter]
    apply List.filter_congr
    intro a _
    simp [Bool.and_comm]
  have hinner : ∀ c : β, (D.map (fun d =>
      (S.filter (fun a => f a = c ∧ g a = d)).length)).sum =
      (S.filter (fun a => f a = c)).length := by
    intro c
    have hcov : ∀ a ∈ S.filter (fun a => f a = c), g a ∈ D := by
      intro a ha
      exact hcovD a (List.mem_of_mem_filter ha)
    calc (D.map (fun d => (S.filter (fun a => f a = c ∧ g a = d)).length)).sum
        = (D.map (fun d =>
            ((S.filter (fun a => f a = c)).filter (fun a => g a = d)).length)).sum := by
          simp only [hcell]
      _ = (S.filter (fun a => f a = c)).length :=
          sum_map_length_filter _ g D hD hcov
  calc (C.map (fun c => (D.map (fun d =>
        (S.filter (fun a => f a = c ∧ g a = d)).length)).sum)).sum
      = (C.map (fun c => (S.filter (fun a => f a = c)).length)).sum := by
        simp only [hinner]
    _ = S.length := sum_map_length_filter S f C hC hcovC

theorem pivot_cell_eq (df : List Row) (c t : String) :
    pivot_cell df c t = ((suspicious_df df).filter
      (fun r => r.voting_constituency = c ∧ r.fraud_type = t)).length := by
  have hpairfilter : (suspicious_df df).filter
      (fun r => (r.voting_constituency, r.fraud_type) = (c, t)) =
      (suspicious_df df).filter
      (fun r => r.voting_constituency = c ∧ r.fraud_type = t) := by
    apply List.filter_congr
    intro r _
    simp [Prod.ext_iff]
  rcases hfind : (detailed_summary df).find? (fun e => e.1 = (c, t)) with _ | e
  · have hnone := List.find?_eq_none.mp hfind
    have hempty : (suspicious_df df).filter
        (fun r => r.voting_constituency = c ∧ r.fraud_type = t) = [] := by
      rw [List.filter_eq_nil_iff]
      intro r hr hct
      simp only [decide_eq_true_eq] at hct
      have hmem : ((c, t) : String × String) ∈ pdUnique ((suspicious_df df).map
          (fun r => (r.voting_constituency, r.fraud_type))) := by
        rw [mem_pdUnique, List.mem_map]
        exact ⟨r, hr, by simp [hct.1, hct.2]⟩
      have hentry : (((c, t), ((suspicious_df df).filter
          (fun r => (r.voting_constituency, r.fraud_type) = (c, t))).length) :
          (String × String) × Nat) ∈ detailed_summary df :=
        List.mem_map_of_mem _ hmem
      have := hnone _ hentry
      simp at this
    rw [pivot_cell, hfind, hempty]
    rfl
  · have hmem := List.mem_of_find?_eq_some hfind
    have hpred := List.find?_some hfind
    simp only [decide_eq_true_eq] at hpred
    rcases List.mem_map.mp hmem with ⟨ct, -, rfl⟩
    simp only at hpred
    subst hpred
    rw [pivot_cell, hfind]
    exact congrArg List.length hpairfilter

/-- C7: every cell of the constituency-by-fraud-type pivot is the count of
suspicious rows with that (constituency, fraud type) pair — zero for the
zero-filled absent combinations — and the sum of all cells of the pivot
equals the total number of suspicious rows. -/
theorem C7_pivot_cells_sum_to_suspicious (df : List Row) :
    (∀ c t, pivot_cell df c t = ((suspicious_df df).filter
      (fun r => r.voting_constituency = c ∧ r.fraud_type = t)).length) ∧
    pivot_total df = (suspicious_df df).length := by
  refine ⟨pivot_cell_eq df, ?_⟩
  rw [pivot_total]
  have h1 : ∀ c : String, ((pivot_columns df).map (fun t => pivot_cell df c t)) =
      ((pivot_columns df).map (fun t => ((suspicious_df df).filter
        (fun r => r.voting_constituency = c ∧ r.fraud_type = t)).length)) := by
    intro c
    apply List.map_congr_left
    intro t _
    exact pivot_cell_eq df c t
  simp only [h1]
  exact sum_grid (suspicious_df df) (fun r => r.voting_constituency)
    (fun r => r.fraud_type) (pivot_index df) (pivot_columns df)
    (nodup_pdUnique _) (nodup_pdUnique _)
    (fun r hr => (mem_pdUnique _ _).mpr (List.mem_map_of_mem _ hr))
    (fun r hr => (mem_pdUnique _ _).mpr (List.mem_map_of_mem _ hr))

end VoterUI
